import Mathlib

/-!
Shallow embedding of the export pagination and rasterization pipeline of
`markdown-stylizer-online` (files `src/layout/pageMetrics.ts`,
`src/export/paginate.ts`, `src/export/rasterize.ts`, the PDF assembler and
the ZIP assembler in `src/export/exportPngZip.ts`), together with proofs of
the documented properties of that pipeline.

JavaScript numbers are modelled as rationals (`ℚ`); DOM-effecting steps are
modelled by an explicit environment of oracles (`Env`) and an explicit
document state (`Dom`) threaded through each export operation; fallible
asynchronous steps return `Except Err` values.
-/

namespace MdStylizer

abbrev Err := String

/-! ### Page metrics (`src/layout/pageMetrics.ts`) -/

structure PageMetrics where
  pageWidthPx : ℚ
  pageHeightPx : ℚ
  marginPx : ℚ
  contentWidthPx : ℚ
  contentHeightPx : ℚ
  pxPerMm : ℚ
deriving DecidableEq, Repr

/-- Ambient CSS configuration read by `getPageMetrics`: the measured width of
the 1 mm probe element, and the parsed values of the CSS variables
`--page-width`, `--page-height`, `--page-margin` (`none` when the raw value
does not parse to a finite number). -/
structure CssConfig where
  probeWidthPx : ℚ
  pageWidthMm : Option ℚ
  pageHeightMm : Option ℚ
  marginMm : Option ℚ
deriving DecidableEq, Repr

/-- Embedding of `measurePxPerMm`: the probe width, with the `px || 3.78` fallback when the
probe measures zero. -/
def measurePxPerMm (cfg : CssConfig) : ℚ :=
  if cfg.probeWidthPx = 0 then 189 / 50 else cfg.probeWidthPx

/-- Embedding of `readMmVar`: the parsed CSS variable value, or the fallback when the value is
not a finite number. -/
def readMmVar (raw : Option ℚ) (fallback : ℚ) : ℚ :=
  raw.getD fallback

/-- Embedding of `getPageMetrics` from `src/layout/pageMetrics.ts`. -/
def getPageMetrics (cfg : CssConfig) : PageMetrics :=
  let pxPerMm := measurePxPerMm cfg
  let pageWidthMm := readMmVar cfg.pageWidthMm 210
  let pageHeightMm := readMmVar cfg.pageHeightMm 297
  let marginMm := readMmVar cfg.marginMm 20
  let pageWidthPx := pageWidthMm * pxPerMm
  let pageHeightPx := pageHeightMm * pxPerMm
  let marginPx := marginMm * pxPerMm
  let contentWidthPx := pageWidthPx - marginPx * 2
  let contentHeightPx := pageHeightPx - marginPx * 2
  { pageWidthPx, pageHeightPx, marginPx, contentWidthPx, contentHeightPx, pxPerMm }

/-! ### Paginator (`src/export/paginate.ts`) -/

structure Pagination where
  pageCount : ℤ
  pageContentHeightPx : ℚ
  totalContentHeightPx : ℚ
  offsets : List ℚ
  clamped : Bool
deriving DecidableEq, Repr

/-- Embedding of `paginate` from `src/export/paginate.ts`. -/
def paginate (totalContentHeightPx pageContentHeightPx maxPages : ℚ) : Pagination :=
  let safePageHeight : ℚ := max 1 pageContentHeightPx
  let rawCount : ℤ := max 1 ⌈totalContentHeightPx / safePageHeight⌉
  let safeMax : ℤ := max 1 ⌊maxPages⌋
  let pageCount : ℤ := min rawCount safeMax
  let offsets : List ℚ :=
    (List.range pageCount.toNat).map (fun (index : ℕ) => (index : ℚ) * safePageHeight)
  { pageCount := pageCount
    pageContentHeightPx := safePageHeight
    totalContentHeightPx := totalContentHeightPx
    offsets := offsets
    clamped := rawCount != pageCount }

/-! ### ZIP entry names (`toFileName` in `src/export/exportPngZip.ts`) -/

/-- The decimal digit character for `n % 10`. -/
def digitChar (n : Nat) : Char :=
  Char.ofNat (48 + n % 10)

/-- The decimal digit characters of `n`, most significant first: the
embedding of the JavaScript conversion `String(n)` for a nonnegative
integer. -/
def decDigits (n : Nat) : List Char :=
  if n < 10 then [digitChar n]
  else decDigits (n / 10) ++ [digitChar (n % 10)]
decreasing_by exact Nat.div_lt_self (by omega) (by omega)

/-- The decimal string `String(n)` for a nonnegative integer `n`. -/
def decRepr (n : Nat) : String :=
  ⟨decDigits n⟩

/-- Embedding of `s.padStart(2, "0")` on the character list of `s`. -/
def padStart2 (s : List Char) : List Char :=
  if 2 ≤ s.length then s else List.replicate (2 - s.length) '0' ++ s

/-- Embedding of `toFileName` from `src/export/exportPngZip.ts`:
`page-${String(index + 1).padStart(2, "0")}.png`. -/
def toFileName (index : Nat) : String :=
  "page-" ++ ⟨padStart2 (decDigits (index + 1))⟩ ++ ".png"

/-! ### Render readiness gate (`waitForImages`, duplicated verbatim in the
rasterizer module and the PDF assembler module of `src/export/exportPngZip.ts`) -/

/-- An `img` element as the readiness gate sees it: whether `img.complete`
already holds, and which terminal event (`onerror` when `failed`, `onload`
otherwise) eventually fires for a not-yet-complete image. -/
structure ImgElement where
  complete : Bool
  failed : Bool
deriving DecidableEq, Repr

/-- The per-image promise executor inside `waitForImages`: resolve at once
when `img.complete`, otherwise resolve on whichever terminal event fires
(`img.onload = () => resolve()`, `img.onerror = () => resolve()`). -/
def settleImage (img : ImgElement) : Except Err Unit :=
  if img.complete then Except.ok ()
  else
    match img.failed with
    | true => Except.ok ()
    | false => Except.ok ()

/-- The join `Promise.all` over already-settled unit promises: the first rejection
wins, otherwise the join resolves. -/
def promiseAll (ps : List (Except Err Unit)) : Except Err Unit :=
  ps.foldl (fun acc p => acc.bind fun _ => p) (Except.ok ())

/-- Embedding of `waitForImages` from `src/export/exportPngZip.ts`: early return when the
container holds no images, otherwise `Promise.all` of one settling promise
per image. -/
def waitForImages (images : List ImgElement) : Except Err Unit :=
  if images.isEmpty then Except.ok ()
  else promiseAll (images.map settleImage)

/-! ### Document state and effect environment

The export operations mutate the live document (staging root attachment,
archive entries, triggered downloads, progress callbacks, the `html2pdf`
configuration) and consume asynchronous collaborators (`resolveAppImages`,
`toPng`, `fetch`-based data-URL decoding, archive finalization, `window.confirm`,
`html2pdf().save()`).  The former is an explicit `Dom` state threaded through
each operation, the latter an oracle environment `Env`. -/

/-- One `onProgress` notification of `exportPngZip`
(`{ step, current?, total? }`). -/
structure ZipProgress where
  step : String
  current : Option Nat := none
  total : Option Nat := none
deriving DecidableEq, Repr

/-- One `onProgress` notification of `exportPdf`
(`{ step, pageCount?, clamped? }`). -/
structure PdfProgress where
  step : String
  pageCount : Option ℤ := none
  clamped : Option Bool := none
deriving DecidableEq, Repr

/-- The option object handed to `html2pdf().set({...})` in `exportPdf`. -/
structure PdfConfig where
  margin : ℚ
  filename : String
  imageType : String
  quality : ℚ
  canvasScale : ℚ
  useCORS : Bool
  unit : String
  format : String
  orientation : String
deriving DecidableEq, Repr

/-- The observable document state mutated by an export operation. -/
structure Dom where
  rootAttached : Bool
  confirmCalls : Nat
  zipEntries : List (String × String)
  downloads : List String
  pdfConfigs : List PdfConfig
  zipProgress : List ZipProgress
  pdfProgress : List PdfProgress
deriving DecidableEq, Repr

def Dom.init : Dom :=
  { rootAttached := false
    confirmCalls := 0
    zipEntries := []
    downloads := []
    pdfConfigs := []
    zipProgress := []
    pdfProgress := [] }

/-- Oracle environment: the ambient CSS configuration, the measured content
height, the image populations of the two content clones, the outcomes of the
asynchronous collaborator calls, and the user's answer to `window.confirm`. -/
structure Env where
  css : CssConfig
  measuredHeight : ℚ
  measureImages : List ImgElement
  contentImages : List ImgElement
  resolveMeasure : Except Err Unit
  resolveContent : Except Err Unit
  confirmAnswer : Bool
  toPng : ℚ → ℚ → Except Err String
  dataUrlToBlob : String → Except Err String
  generateZip : Except Err Unit
  savePdf : Except Err Unit

/-! ### Rasterizer (`rasterizePages` in `src/export/exportPngZip.ts`) -/

structure RasterizeResult where
  pages : List String
  pagination : Pagination
  pageWidthPx : ℚ
  pageHeightPx : ℚ
deriving DecidableEq, Repr

/-- The `for (const offset of pagination.offsets)` loop of `rasterizePages`:
build a page shell, translate the content by `-offset`, convert the shell to
a PNG data URL at pixel ratio `scale`, append it, remove the shell; a `toPng`
rejection aborts the loop. -/
def rasterizeLoop (env : Env) (scale : ℚ) (offsets : List ℚ) (pages : List String) :
    Except Err (List String) :=
  match offsets with
  | [] => Except.ok pages
  | offset :: rest =>
    match env.toPng scale offset with
    | Except.error e => Except.error e
    | Except.ok dataUrl => rasterizeLoop env scale rest (pages ++ [dataUrl])

/-- Embedding of `rasterizePages` from `src/export/exportPngZip.ts`.  `createExportRoot()`
attaches the staging root; each awaited step that rejects propagates the
error; only the final `exportRoot.remove()` on the success path detaches the
staging root. -/
def rasterizePages (env : Env) (maxPages : ℚ) (scale : ℚ) (d : Dom) :
    Except Err RasterizeResult × Dom :=
  let m := getPageMetrics env.css
  let d0 : Dom := { d with rootAttached := true }
  match env.resolveMeasure with
  | Except.error e => (Except.error e, d0)
  | Except.ok _ =>
  match waitForImages env.measureImages with
  | Except.error e => (Except.error e, d0)
  | Except.ok _ =>
  let pagination := paginate env.measuredHeight m.contentHeightPx maxPages
  match env.resolveContent with
  | Except.error e => (Except.error e, d0)
  | Except.ok _ =>
  match waitForImages env.contentImages with
  | Except.error e => (Except.error e, d0)
  | Except.ok _ =>
  match rasterizeLoop env scale pagination.offsets [] with
  | Except.error e => (Except.error e, d0)
  | Except.ok pages =>
      (Except.ok
        { pages := pages
          pagination := pagination
          pageWidthPx := m.pageWidthPx
          pageHeightPx := m.pageHeightPx },
       { d0 with rootAttached := false })

/-! ### PDF assembler (`exportPdf` in `src/export/exportPngZip.ts`) -/

structure ExportPdfResult where
  pagination : Pagination
  cancelled : Bool
deriving DecidableEq, Repr

/-- The tail of `exportPdf` after the confirmation branch: build the export
clone, resolve and await its images, report `render`, drive `html2pdf` with
the literal option object, remove the staging root, report `done`. -/
def exportPdfProceed (env : Env) (pagination : Pagination) (fileName : Option String)
    (d : Dom) : Except Err ExportPdfResult × Dom :=
  match env.resolveContent with
  | Except.error e => (Except.error e, d)
  | Except.ok _ =>
  match waitForImages env.contentImages with
  | Except.error e => (Except.error e, d)
  | Except.ok _ =>
  let d1 := { d with
    pdfProgress := d.pdfProgress ++ [({ step := "render", pageCount := some pagination.pageCount } : PdfProgress)] }
  let cfg : PdfConfig :=
    { margin := 0
      filename := fileName.getD "document.pdf"
      imageType := "png"
      quality := 1
      canvasScale := 2
      useCORS := true
      unit := "mm"
      format := "a4"
      orientation := "portrait" }
  match env.savePdf with
  | Except.error e => (Except.error e, { d1 with pdfConfigs := d1.pdfConfigs ++ [cfg] })
  | Except.ok _ =>
      (Except.ok { pagination := pagination, cancelled := false },
       { d1 with
          pdfConfigs := d1.pdfConfigs ++ [cfg]
          downloads := d1.downloads ++ [cfg.filename]
          rootAttached := false
          pdfProgress := d1.pdfProgress ++ [({ step := "done" } : PdfProgress)] })

/-- Embedding of `exportPdf` from `src/export/exportPngZip.ts`. -/
def exportPdf (env : Env) (maxPages : ℚ) (fileName : Option String) (d : Dom) :
    Except Err ExportPdfResult × Dom :=
  let m := getPageMetrics env.css
  let d0 : Dom := { d with rootAttached := true }
  match env.resolveMeasure with
  | Except.error e => (Except.error e, d0)
  | Except.ok _ =>
  match waitForImages env.measureImages with
  | Except.error e => (Except.error e, d0)
  | Except.ok _ =>
  let pagination := paginate env.measuredHeight m.contentHeightPx maxPages
  let d1 := { d0 with
    pdfProgress := d0.pdfProgress
      ++ [({ step := "measure"
             pageCount := some pagination.pageCount
             clamped := some pagination.clamped } : PdfProgress)] }
  if pagination.pageCount > 1 then
    let d2 := { d1 with confirmCalls := d1.confirmCalls + 1 }
    if env.confirmAnswer then
      exportPdfProceed env pagination fileName d2
    else
      (Except.ok { pagination := pagination, cancelled := true },
       { d2 with rootAttached := false })
  else
    exportPdfProceed env pagination fileName d1

/-! ### ZIP assembler (`exportPngZip` in `src/export/exportPngZip.ts`) -/

/-- The archiving loop of `exportPngZip`: report `zip` progress for each
page, convert its data URL to a blob, deposit it in the archive under
`toFileName index`. -/
def zipLoop (env : Env) (pages : List String) (index total : Nat) (d : Dom) :
    Except Err Unit × Dom :=
  match pages with
  | [] => (Except.ok (), d)
  | dataUrl :: rest =>
    let d1 := { d with
      zipProgress := d.zipProgress
        ++ [({ step := "zip", current := some (index + 1), total := some total } : ZipProgress)] }
    match env.dataUrlToBlob dataUrl with
    | Except.error e => (Except.error e, d1)
    | Except.ok blob =>
        zipLoop env rest (index + 1) total
          { d1 with zipEntries := d1.zipEntries ++ [(toFileName index, blob)] }

/-- Embedding of `exportPngZip` from `src/export/exportPngZip.ts`. -/
def exportPngZip (env : Env) (maxPages : ℚ) (scale : ℚ) (fileName : Option String)
    (d : Dom) : Except Err RasterizeResult × Dom :=
  let d0 := { d with zipProgress := d.zipProgress ++ [({ step := "rasterize" } : ZipProgress)] }
  match rasterizePages env maxPages scale d0 with
  | (Except.error e, d1) => (Except.error e, d1)
  | (Except.ok result, d1) =>
    let total := result.pages.length
    match zipLoop env result.pages 0 total d1 with
    | (Except.error e, d2) => (Except.error e, d2)
    | (Except.ok _, d2) =>
      let d3 := { d2 with zipProgress := d2.zipProgress ++ [({ step := "generate" } : ZipProgress)] }
      match env.generateZip with
      | Except.error e => (Except.error e, d3)
      | Except.ok _ =>
        let d4 := { d3 with downloads := d3.downloads ++ [fileName.getD "markdown-pages.zip"] }
        (Except.ok result, { d4 with zipProgress := d4.zipProgress ++ [({ step := "done" } : ZipProgress)] })

/-! ## Helper lemmas -/

theorem settleImage_ok (img : ImgElement) : settleImage img = Except.ok () := by
  unfold settleImage
  rcases img with ⟨c, f⟩
  cases c <;> cases f <;> rfl

theorem promiseAll_ok (ps : List (Except Err Unit))
    (h : ∀ p ∈ ps, p = Except.ok ()) : promiseAll ps = Except.ok () := by
  unfold promiseAll
  induction ps with
  | nil => rfl
  | cons p rest ih =>
      rw [List.foldl_cons]
      have hp : p = Except.ok () := h p (List.mem_cons_self p rest)
      subst hp
      exact ih fun q hq => h q (List.mem_cons_of_mem _ hq)

theorem waitForImages_ok (images : List ImgElement) :
    waitForImages images = Except.ok () := by
  unfold waitForImages
  by_cases h : images.isEmpty
  · simp [h]
  · simp only [h, if_false]
    exact promiseAll_ok _ (by
      intro p hp
      rcases List.mem_map.mp hp with ⟨img, _, rfl⟩
      exact settleImage_ok img)

theorem paginate_pageContentHeightPx (t h mp : ℚ) :
    (paginate t h mp).pageContentHeightPx = max 1 h := rfl

theorem one_le_paginate_pageContentHeightPx (t h mp : ℚ) :
    1 ≤ (paginate t h mp).pageContentHeightPx :=
  le_max_left 1 h

theorem one_le_paginate_pageCount (t h mp : ℚ) :
    1 ≤ (paginate t h mp).pageCount :=
  le_min (le_max_left _ _) (le_max_left _ _)

theorem paginate_offsets_def (t h mp : ℚ) :
    (paginate t h mp).offsets =
      (List.range (paginate t h mp).pageCount.toNat).map
        (fun (index : ℕ) => (index : ℚ) * (paginate t h mp).pageContentHeightPx) := rfl

theorem paginate_offsets_length (t h mp : ℚ) :
    (paginate t h mp).offsets.length = (paginate t h mp).pageCount.toNat := by
  rw [paginate_offsets_def, List.length_map, List.length_range]

theorem paginate_offsets_getElem (t h mp : ℚ) (i : Nat)
    (hi : i < (paginate t h mp).offsets.length) :
    (paginate t h mp).offsets[i] = (i : ℚ) * (paginate t h mp).pageContentHeightPx := by
  have hi' : i < (List.range (paginate t h mp).pageCount.toNat).length := by
    simpa [paginate_offsets_length] using hi
  simp only [paginate_offsets_def, List.getElem_map, List.getElem_range]

theorem paginate_offsets_sorted (t h mp : ℚ) :
    List.Pairwise (· < ·) (paginate t h mp).offsets := by
  rw [paginate_offsets_def]
  refine List.Pairwise.map _ ?_ (List.pairwise_lt_range _)
  intro a b hab
  have hpos : (0 : ℚ) < (paginate t h mp).pageContentHeightPx :=
    lt_of_lt_of_le one_pos (one_le_paginate_pageContentHeightPx t h mp)
  exact mul_lt_mul_of_pos_right (by exact_mod_cast hab) hpos

theorem paginate_single_page (t h mp : ℚ) (hle : t ≤ h) :
    (paginate t h mp).pageCount = 1 := by
  unfold paginate
  have hsafe : (0 : ℚ) < max 1 h := lt_of_lt_of_le one_pos (le_max_left 1 h)
  have hq : t / max 1 h ≤ 1 := by
    rw [div_le_one hsafe]
    exact le_trans hle (le_max_right 1 h)
  have hceil : ⌈t / max 1 h⌉ ≤ 1 := by
    rw [show (1 : ℤ) = ((1 : ℤ) : ℤ) from rfl]
    exact Int.ceil_le.mpr (by exact_mod_cast hq)
  have hraw : max 1 ⌈t / max 1 h⌉ = 1 := max_eq_left hceil
  simp only [hraw]
  exact min_eq_left (le_max_left _ _)

/-! ## Concrete evaluations of `paginate` -/

theorem paginate_25_10_10 :
    paginate 25 10 10 =
      { pageCount := 3
        pageContentHeightPx := 10
        totalContentHeightPx := 25
        offsets := [0, 10, 20]
        clamped := false } := by
  have hceil : (⌈(25 : ℚ) / max 1 10⌉ : ℤ) = 3 := by
    rw [show max (1 : ℚ) 10 = 10 by norm_num, Int.ceil_eq_iff]; norm_num
  simp only [paginate]
  rw [hceil]
  norm_num [max_def, min_def]
  rw [show Int.toNat 3 = 3 from rfl]
  simp [List.range_succ]
  norm_num

theorem paginate_2150_1000_10 :
    paginate 2150 1000 10 =
      { pageCount := 3
        pageContentHeightPx := 1000
        totalContentHeightPx := 2150
        offsets := [0, 1000, 2000]
        clamped := false } := by
  have hceil : (⌈(2150 : ℚ) / max 1 1000⌉ : ℤ) = 3 := by
    rw [show max (1 : ℚ) 1000 = 1000 by norm_num, Int.ceil_eq_iff]; norm_num
  simp only [paginate]
  rw [hceil]
  norm_num [max_def, min_def]
  rw [show Int.toNat 3 = 3 from rfl]
  simp [List.range_succ]
  norm_num

theorem paginate_2150_1000_2 :
    paginate 2150 1000 2 =
      { pageCount := 2
        pageContentHeightPx := 1000
        totalContentHeightPx := 2150
        offsets := [0, 1000]
        clamped := true } := by
  have hceil : (⌈(2150 : ℚ) / max 1 1000⌉ : ℤ) = 3 := by
    rw [show max (1 : ℚ) 1000 = 1000 by norm_num, Int.ceil_eq_iff]; norm_num
  simp only [paginate]
  rw [hceil]
  norm_num [max_def, min_def]
  rw [show Int.toNat 2 = 2 from rfl]
  simp [List.range_succ]

theorem paginate_0_100_5 :
    paginate 0 100 5 =
      { pageCount := 1
        pageContentHeightPx := 100
        totalContentHeightPx := 0
        offsets := [0]
        clamped := false } := by
  have hceil : (⌈(0 : ℚ) / max 1 100⌉ : ℤ) = 0 := by norm_num
  simp only [paginate]
  rw [hceil]
  norm_num [max_def, min_def]
  simp [List.range_succ]

/-! ## Claim theorems -/

/-- C4: for every input triple, the `Pagination` returned by `paginate` has
`pageCount ≥ 1`, `offsets` of length exactly `pageCount`, `offsets[0] = 0`,
and `offsets[i] = i * pageContentHeightPx` (the returned per-page height) for
every index `i`. -/
theorem paginate_offsets_spec (t h mp : ℚ) :
    1 ≤ (paginate t h mp).pageCount ∧
    (paginate t h mp).offsets.length = (paginate t h mp).pageCount.toNat ∧
    (paginate t h mp).offsets.head? = some 0 ∧
    ∀ i (hi : i < (paginate t h mp).offsets.length),
      (paginate t h mp).offsets[i] = (i : ℚ) * (paginate t h mp).pageContentHeightPx := by
  refine ⟨one_le_paginate_pageCount t h mp, paginate_offsets_length t h mp, ?_,
    paginate_offsets_getElem t h mp⟩
  have hlen : 0 < (paginate t h mp).offsets.length := by
    have h1 := one_le_paginate_pageCount t h mp
    rw [paginate_offsets_length]
    omega
  have hne : (paginate t h mp).offsets ≠ [] := List.ne_nil_of_length_pos hlen
  rw [List.head?_eq_head hne, ← List.getElem_zero hlen,
    paginate_offsets_getElem t h mp 0 hlen]
  norm_num

/-- Witness for C4 at the concrete triple (2150, 1000, 10), index 1. -/
theorem paginate_offsets_spec_witness :
    1 ≤ (paginate 2150 1000 10).pageCount ∧
    (paginate 2150 1000 10).offsets.length = (paginate 2150 1000 10).pageCount.toNat ∧
    (paginate 2150 1000 10).offsets.head? = some 0 ∧
    (paginate 2150 1000 10).offsets[1]? =
      some ((1 : ℚ) * (paginate 2150 1000 10).pageContentHeightPx) := by
  have T := paginate_offsets_spec 2150 1000 10
  refine ⟨T.1, T.2.1, T.2.2.1, ?_⟩
  have hl : 1 < (paginate 2150 1000 10).offsets.length := by
    simp [paginate_2150_1000_10]
  rw [List.getElem?_eq_getElem hl, T.2.2.2 1 hl]
  norm_num

/-- C2 counterexample: at the triple (0, 100, 5) the quantity
`ceil(total/pageHeight) = 0` does not exceed `maxPages = 5`, yet `paginate`
returns `pageCount = 1`, not `ceil(total/pageHeight)`. -/
theorem paginate_clamp_counterexample :
    ((⌈(0 : ℚ) / 100⌉ : ℚ) ≤ 5) ∧ (paginate 0 100 5).pageCount ≠ ⌈(0 : ℚ) / 100⌉ := by
  constructor
  · norm_num
  · rw [paginate_0_100_5]
    norm_num

/-- C2 amended: for inputs already inside the coerced ranges — positive
total height, per-page height at least 1, integer maximum page count at
least 1 — if `ceil(total/pageHeight) > maxPages` then `pageCount = maxPages`
and `clamped = true`, otherwise `pageCount = ceil(total/pageHeight)` and
`clamped = false`. -/
theorem paginate_clamp_correct (t h : ℚ) (mp : ℤ)
    (hh : 1 ≤ h) (ht : 0 < t) (hmp : 1 ≤ mp) :
    (mp < ⌈t / h⌉ →
      (paginate t h (mp : ℚ)).pageCount = mp ∧ (paginate t h (mp : ℚ)).clamped = true) ∧
    (⌈t / h⌉ ≤ mp →
      (paginate t h (mp : ℚ)).pageCount = ⌈t / h⌉ ∧
      (paginate t h (mp : ℚ)).clamped = false) := by
  have hsafe : max 1 h = h := max_eq_right hh
  have hfloor : (⌊(mp : ℚ)⌋ : ℤ) = mp := Int.floor_intCast mp
  have hceil1 : 1 ≤ ⌈t / h⌉ := by
    have hpos : 0 < t / h := div_pos ht (lt_of_lt_of_le one_pos hh)
    have := Int.ceil_pos.mpr hpos
    omega
  constructor
  · intro hlt
    have hmin : min (max 1 ⌈t / h⌉) (max 1 mp) = mp := by
      rw [max_eq_right hceil1, max_eq_right hmp]
      exact min_eq_right (le_of_lt hlt)
    constructor
    · show min (max 1 ⌈t / max 1 h⌉) (max 1 ⌊(mp : ℚ)⌋) = mp
      rw [hsafe, hfloor, hmin]
    · show (max 1 ⌈t / max 1 h⌉ != min (max 1 ⌈t / max 1 h⌉) (max 1 ⌊(mp : ℚ)⌋)) = true
      rw [hsafe, hfloor, hmin, max_eq_right hceil1]
      exact bne_iff_ne.mpr (ne_of_gt hlt)
  · intro hle
    have hmin : min (max 1 ⌈t / h⌉) (max 1 mp) = ⌈t / h⌉ := by
      rw [max_eq_right hceil1, max_eq_right hmp]
      exact min_eq_left hle
    constructor
    · show min (max 1 ⌈t / max 1 h⌉) (max 1 ⌊(mp : ℚ)⌋) = ⌈t / h⌉
      rw [hsafe, hfloor, hmin]
    · show (max 1 ⌈t / max 1 h⌉ != min (max 1 ⌈t / max 1 h⌉) (max 1 ⌊(mp : ℚ)⌋)) = false
      rw [hsafe, hfloor, hmin, max_eq_right hceil1]
      exact bne_self_eq_false _

/-- Witness for the amended C2 at the clamped triple (2150, 1000, 2). -/
theorem paginate_clamp_correct_witness :
    (1 : ℚ) ≤ 1000 ∧ (0 : ℚ) < 2150 ∧ (1 : ℤ) ≤ 2 ∧
    ((2 : ℤ) < ⌈(2150 : ℚ) / 1000⌉ →
      (paginate 2150 1000 ((2 : ℤ) : ℚ)).pageCount = 2 ∧
      (paginate 2150 1000 ((2 : ℤ) : ℚ)).clamped = true) := by
  refine ⟨by norm_num, by norm_num, by norm_num, ?_⟩
  exact (paginate_clamp_correct 2150 1000 2 (by norm_num) (by norm_num) (by norm_num)).1

/-- C7: `waitForImages` never rejects; an image whose load fails settles the
wait exactly as a successfully loaded one; an image-free root resolves at
once through the early-return branch. -/
theorem waitForImages_never_rejects :
    (∀ images : List ImgElement, waitForImages images = Except.ok ()) ∧
    (∀ img : ImgElement,
      settleImage { img with failed := true } = settleImage { img with failed := false }) ∧
    waitForImages [] = Except.ok () := by
  refine ⟨waitForImages_ok, ?_, waitForImages_ok []⟩
  intro img
  rw [settleImage_ok, settleImage_ok]

/-! ## Decimal digits and entry names -/

theorem decDigits_lt10 (n : ℕ) (h : n < 10) : decDigits n = [digitChar n] := by
  rw [decDigits, if_pos h]

theorem decDigits_ge10 (n : ℕ) (h : ¬ n < 10) :
    decDigits n = decDigits (n / 10) ++ [digitChar (n % 10)] := by
  rw [decDigits, if_neg h]

theorem decDigits_length_pos (n : ℕ) : 0 < (decDigits n).length := by
  rw [decDigits]
  split
  · simp
  · simp

theorem two_le_decDigits_length (n : ℕ) (h : 10 ≤ n) : 2 ≤ (decDigits n).length := by
  rw [decDigits_ge10 n (by omega)]
  have := decDigits_length_pos (n / 10)
  simp only [List.length_append, List.length_singleton]
  omega

theorem three_le_decDigits_length (n : ℕ) (h : 100 ≤ n) : 3 ≤ (decDigits n).length := by
  rw [decDigits_ge10 n (by omega)]
  have h10 : 10 ≤ n / 10 := by omega
  have := two_le_decDigits_length (n / 10) h10
  simp only [List.length_append, List.length_singleton]
  omega

theorem digitChar_fin_inj : ∀ a b : Fin 10, digitChar a = digitChar b → a = b := by
  decide

theorem digitChar_inj_lt (m n : ℕ) (hm : m < 10) (hn : n < 10)
    (h : digitChar m = digitChar n) : m = n := by
  have := digitChar_fin_inj ⟨m, hm⟩ ⟨n, hn⟩ h
  exact congrArg Fin.val this

theorem decDigits_head_ne_zero :
    ∀ n, 1 ≤ n → ∀ c, (decDigits n).head? = some c → c ≠ '0' := by
  intro n
  induction n using Nat.strong_induction_on with
  | _ n ih =>
    intro h1 c hc
    by_cases hn : n < 10
    · rw [decDigits_lt10 n hn] at hc
      simp only [List.head?_cons, Option.some.injEq] at hc
      subst hc
      interval_cases n <;> decide
    · rw [decDigits_ge10 n hn] at hc
      obtain ⟨hd, tl, heq⟩ :=
        List.exists_cons_of_ne_nil (List.ne_nil_of_length_pos (decDigits_length_pos (n / 10)))
      rw [heq] at hc
      simp only [List.cons_append, List.head?_cons, Option.some.injEq] at hc
      refine ih (n / 10) (Nat.div_lt_self (by omega) (by omega)) (by omega) c ?_
      rw [heq]
      simpa using hc

theorem decDigits_injective : ∀ m, ∀ n, decDigits m = decDigits n → m = n := by
  intro m
  induction m using Nat.strong_induction_on with
  | _ m ih =>
    intro n h
    by_cases hm : m < 10 <;> by_cases hn : n < 10
    · rw [decDigits_lt10 m hm, decDigits_lt10 n hn] at h
      simp only [List.cons.injEq, and_true] at h
      exact digitChar_inj_lt m n hm hn h
    · rw [decDigits_lt10 m hm, decDigits_ge10 n hn] at h
      have hlen := congrArg List.length h
      have := decDigits_length_pos (n / 10)
      simp only [List.length_singleton, List.length_append] at hlen
      omega
    · rw [decDigits_ge10 m hm, decDigits_lt10 n hn] at h
      have hlen := congrArg List.length h
      have := decDigits_length_pos (m / 10)
      simp only [List.length_singleton, List.length_append] at hlen
      omega
    · rw [decDigits_ge10 m hm, decDigits_ge10 n hn] at h
      have hsplit := List.append_inj' h (by simp)
      have hq : m / 10 = n / 10 :=
        ih (m / 10) (Nat.div_lt_self (by omega) (by omega)) (n / 10) hsplit.1
      have hr : m % 10 = n % 10 := by
        have hd : digitChar (m % 10) = digitChar (n % 10) := by
          have := hsplit.2
          simpa using this
        exact digitChar_inj_lt _ _ (Nat.mod_lt _ (by omega)) (Nat.mod_lt _ (by omega)) hd
      omega

theorem padStart2_decDigits_inj (m n : ℕ) (hm : 1 ≤ m) (hn : 1 ≤ n)
    (h : padStart2 (decDigits m) = padStart2 (decDigits n)) : m = n := by
  unfold padStart2 at h
  by_cases h2m : 2 ≤ (decDigits m).length <;> by_cases h2n : 2 ≤ (decDigits n).length
  · rw [if_pos h2m, if_pos h2n] at h
    exact decDigits_injective m n h
  · rw [if_pos h2m, if_neg h2n] at h
    obtain ⟨a, ha⟩ := List.length_eq_one.mp
      (by have := decDigits_length_pos n; omega :
        (decDigits n).length = 1)
    rw [ha] at h
    simp only [List.length_singleton] at h
    have hhead : (decDigits m).head? = some '0' := by
      rw [h]
      rfl
    exact absurd rfl (decDigits_head_ne_zero m hm '0' hhead)
  · rw [if_neg h2m, if_pos h2n] at h
    obtain ⟨a, ha⟩ := List.length_eq_one.mp
      (by have := decDigits_length_pos m; omega :
        (decDigits m).length = 1)
    rw [ha] at h
    simp only [List.length_singleton] at h
    have hhead : (decDigits n).head? = some '0' := by
      rw [← h]
      rfl
    exact absurd rfl (decDigits_head_ne_zero n hn '0' hhead)
  · rw [if_neg h2m, if_neg h2n] at h
    obtain ⟨a, ha⟩ := List.length_eq_one.mp
      (by have := decDigits_length_pos m; omega :
        (decDigits m).length = 1)
    obtain ⟨b, hb⟩ := List.length_eq_one.mp
      (by have := decDigits_length_pos n; omega :
        (decDigits n).length = 1)
    rw [ha, hb] at h
    simp only [List.length_singleton, List.replicate, List.cons_append,
      List.nil_append, List.cons.injEq] at h
    exact decDigits_injective m n (by rw [ha, hb, h.2.1])

theorem toFileName_injective : Function.Injective toFileName := by
  intro i j h
  unfold toFileName at h
  have hdata := congrArg String.data h
  simp only [String.data_append, List.append_assoc] at hdata
  have h1 := List.append_cancel_left hdata
  have h2 := List.append_cancel_right h1
  have := padStart2_decDigits_inj (i + 1) (j + 1) (by omega) (by omega) h2
  omega

/-- C10: a ZIP entry name is `page-` followed by the decimal digits of
`index + 1` left-padded with zeros to a minimum of two digits, followed by
`.png`; the padding never truncates (`(padStart2 s).length = max 2 s.length`),
and from `index + 1 ≥ 100` on the name carries three or more digits with no
padding at all. -/
theorem toFileName_padding_never_truncates :
    (∀ s : List Char, (padStart2 s).length = max 2 s.length) ∧
    (∀ i : ℕ, 100 ≤ i + 1 →
      toFileName i = "page-" ++ decRepr (i + 1) ++ ".png" ∧
      3 ≤ (decRepr (i + 1)).length) := by
  constructor
  · intro s
    unfold padStart2
    split
    · next h => rw [max_eq_right h]
    · next h =>
      simp only [List.length_append, List.length_replicate]
      omega
  · intro i hi
    have h3 : 3 ≤ (decDigits (i + 1)).length := three_le_decDigits_length _ hi
    constructor
    · unfold toFileName decRepr padStart2
      rw [if_pos (by omega)]
    · exact h3

/-- Witness for C10 at index 99 (`page-100.png`). -/
theorem toFileName_padding_never_truncates_witness :
    100 ≤ 99 + 1 ∧
    (toFileName 99 = "page-" ++ decRepr (99 + 1) ++ ".png" ∧
      3 ≤ (decRepr (99 + 1)).length) :=
  ⟨by norm_num, toFileName_padding_never_truncates.2 99 (by norm_num)⟩

/-! ## Canonical concrete environments -/

/-- A concrete CSS configuration: probe 1 px/mm, page 50×30 mm, margin
10 mm, so the content box is 30×10 px. -/
def cssOk : CssConfig :=
  { probeWidthPx := 1
    pageWidthMm := some 50
    pageHeightMm := some 30
    marginMm := some 10 }

/-- A fully successful oracle environment: content measuring 25 px against a
10 px page content height, one already-complete image and one broken image
in the content clone, every collaborator succeeding. -/
def envOk : Env :=
  { css := cssOk
    measuredHeight := 25
    measureImages := []
    contentImages := [{ complete := true, failed := false }, { complete := false, failed := true }]
    resolveMeasure := Except.ok ()
    resolveContent := Except.ok ()
    confirmAnswer := true
    toPng := fun _ _ => Except.ok "dataUrl"
    dataUrlToBlob := fun _ => Except.ok "blob"
    generateZip := Except.ok ()
    savePdf := Except.ok () }

theorem getPageMetrics_cssOk :
    getPageMetrics cssOk =
      { pageWidthPx := 50
        pageHeightPx := 30
        marginPx := 10
        contentWidthPx := 30
        contentHeightPx := 10
        pxPerMm := 1 } := by
  norm_num [getPageMetrics, measurePxPerMm, readMmVar, cssOk]

/-- The successful rasterization result of `envOk`: three pages. -/
def rasterResultOk : RasterizeResult :=
  { pages := ["dataUrl", "dataUrl", "dataUrl"]
    pagination := paginate 25 10 10
    pageWidthPx := 50
    pageHeightPx := 30 }

theorem rasterizePages_envOk (d : Dom) :
    rasterizePages envOk 10 2 d =
      (Except.ok rasterResultOk, { d with rootAttached := false }) := by
  simp only [rasterizePages, envOk, getPageMetrics_cssOk, waitForImages_ok]
  rw [paginate_25_10_10]
  simp only [rasterizeLoop]
  rw [rasterResultOk, paginate_25_10_10]
  simp

/-! ## Rasterizer lemmas -/

theorem rasterizeLoop_ok (env : Env) (scale : ℚ) :
    ∀ (offsets : List ℚ) (acc pages : List String),
      rasterizeLoop env scale offsets acc = Except.ok pages →
      ∃ newPages : List String,
        pages = acc ++ newPages ∧
        newPages.length = offsets.length ∧
        ∀ k (hk : k < offsets.length) (hp : k < newPages.length),
          env.toPng scale offsets[k] = Except.ok newPages[k] := by
  intro offsets
  induction offsets with
  | nil =>
      intro acc pages h
      simp only [rasterizeLoop] at h
      refine ⟨[], ?_, by simp, by simp⟩
      simp only [Except.ok.injEq] at h
      simp [← h]
  | cons o rest ih =>
      intro acc pages h
      simp only [rasterizeLoop] at h
      cases het : env.toPng scale o with
      | error e =>
          rw [het] at h
          exact absurd h (by simp)
      | ok dataUrl =>
          rw [het] at h
          obtain ⟨newPages, hp1, hp2, hp3⟩ := ih (acc ++ [dataUrl]) pages h
          refine ⟨dataUrl :: newPages, ?_, by simp [hp2], ?_⟩
          · rw [hp1, List.append_assoc]
            rfl
          · intro k hk hpk
            cases k with
            | zero => simpa using het
            | succ k =>
                have hk' : k < rest.length := by simpa using hk
                have hpk' : k < newPages.length := by simpa using hpk
                simpa using hp3 k hk' hpk'

/-- C3: whenever `rasterizePages` returns successfully, the returned `pages`
sequence has length exactly `pagination.pageCount`, the offsets are strictly
increasing with one produced image per offset, in order, no gaps and no
duplicates. -/
theorem rasterizePages_pages_spec (env : Env) (maxPages scale : ℚ) (d d2 : Dom)
    (r : RasterizeResult)
    (h : rasterizePages env maxPages scale d = (Except.ok r, d2)) :
    (r.pages.length : ℤ) = r.pagination.pageCount ∧
    r.pagination.offsets.length = r.pages.length ∧
    List.Pairwise (· < ·) r.pagination.offsets ∧
    ∀ k (hk : k < r.pagination.offsets.length) (hp : k < r.pages.length),
      env.toPng scale r.pagination.offsets[k] = Except.ok r.pages[k] := by
  simp only [rasterizePages, waitForImages_ok] at h
  cases hrm : env.resolveMeasure with
  | error e => rw [hrm] at h; simp at h
  | ok u =>
  rw [hrm] at h
  cases hrc : env.resolveContent with
  | error e => rw [hrc] at h; simp at h
  | ok v =>
  rw [hrc] at h
  cases hloop : rasterizeLoop env scale
      (paginate env.measuredHeight (getPageMetrics env.css).contentHeightPx maxPages).offsets
      [] with
  | error e => rw [hloop] at h; simp at h
  | ok pages =>
  rw [hloop] at h
  simp only [Prod.mk.injEq, Except.ok.injEq] at h
  obtain ⟨newPages, hnil, hlen, hpt⟩ := rasterizeLoop_ok env scale _ _ _ hloop
  simp only [List.nil_append] at hnil
  subst hnil
  have hr : r = { pages := pages
                  pagination := paginate env.measuredHeight
                    (getPageMetrics env.css).contentHeightPx maxPages
                  pageWidthPx := (getPageMetrics env.css).pageWidthPx
                  pageHeightPx := (getPageMetrics env.css).pageHeightPx } := h.1.symm
  subst hr
  refine ⟨?_, ?_, paginate_offsets_sorted _ _ _, ?_⟩
  · simp only [hlen, paginate_offsets_length]
    have h1 := one_le_paginate_pageCount env.measuredHeight
      (getPageMetrics env.css).contentHeightPx maxPages
    omega
  · simp [hlen, paginate_offsets_length]
  · intro k hk hp
    exact hpt k hk hp

/-- Witness for C3: the canonical successful three-page environment. -/
theorem rasterizePages_pages_spec_witness :
    ∃ r : RasterizeResult, ∃ d2 : Dom,
      rasterizePages envOk 10 2 Dom.init = (Except.ok r, d2) ∧
      ((r.pages.length : ℤ) = r.pagination.pageCount ∧
        r.pagination.offsets.length = r.pages.length ∧
        List.Pairwise (· < ·) r.pagination.offsets ∧
        ∀ k (hk : k < r.pagination.offsets.length) (hp : k < r.pages.length),
          envOk.toPng 2 r.pagination.offsets[k] = Except.ok r.pages[k]) :=
  ⟨_, _, rasterizePages_envOk Dom.init,
    rasterizePages_pages_spec envOk 10 2 Dom.init _ _ (rasterizePages_envOk Dom.init)⟩

/-! ## Staging-root lifecycle -/

/-- On every run, `rasterizePages` either succeeds with the staging root
detached or propagates an error with the staging root still attached: the
only `exportRoot.remove()` sits on the success path. -/
theorem rasterizePages_dom (env : Env) (maxPages scale : ℚ) (d : Dom) :
    (∀ r d2, rasterizePages env maxPages scale d = (Except.ok r, d2) →
      d2 = { d with rootAttached := false }) ∧
    (∀ e d2, rasterizePages env maxPages scale d = (Except.error e, d2) →
      d2 = { d with rootAttached := true }) := by
  simp only [rasterizePages, waitForImages_ok]
  cases hrm : env.resolveMeasure with
  | error e => exact ⟨fun r d2 h => by simp at h, fun e2 d2 h => by
      simp only [Prod.mk.injEq] at h
      exact h.2.symm⟩
  | ok u =>
  cases hrc : env.resolveContent with
  | error e => exact ⟨fun r d2 h => by simp at h, fun e2 d2 h => by
      simp only [Prod.mk.injEq] at h
      exact h.2.symm⟩
  | ok v =>
  cases hloop : rasterizeLoop env scale
      (paginate env.measuredHeight (getPageMetrics env.css).contentHeightPx maxPages).offsets
      [] with
  | error e => exact ⟨fun r d2 h => by simp at h, fun e2 d2 h => by
      simp only [Prod.mk.injEq] at h
      exact h.2.symm⟩
  | ok pages => exact ⟨fun r d2 h => by
      simp only [Prod.mk.injEq] at h
      exact h.2.symm, fun e2 d2 h => by simp at h⟩

/-- The environment `envOk` with a rasterization oracle that rejects: the
first page's bitmap conversion throws. -/
def envPngFail : Env :=
  { envOk with toPng := fun _ _ => Except.error "toPng rejected" }

/-- The environment `envOk` with a PDF conversion step that rejects. -/
def envPdfFail : Env :=
  { envOk with savePdf := Except.error "html2pdf rejected" }

theorem rasterizePages_envPngFail :
    rasterizePages envPngFail 10 2 Dom.init =
      (Except.error "toPng rejected", { Dom.init with rootAttached := true }) := by
  simp only [rasterizePages, envPngFail, envOk, getPageMetrics_cssOk, waitForImages_ok]
  rw [paginate_25_10_10]
  simp only [rasterizeLoop]

theorem exportPdf_envPdfFail :
    exportPdf envPdfFail 10 none Dom.init =
      (Except.error "html2pdf rejected",
       { rootAttached := true
         confirmCalls := 1
         zipEntries := []
         downloads := []
         pdfConfigs := [{ margin := 0
                          filename := "document.pdf"
                          imageType := "png"
                          quality := 1
                          canvasScale := 2
                          useCORS := true
                          unit := "mm"
                          format := "a4"
                          orientation := "portrait" }]
         zipProgress := []
         pdfProgress := [{ step := "measure", pageCount := some 3, clamped := some false },
                         { step := "render", pageCount := some 3, clamped := none }] }) := by
  simp only [exportPdf, envPdfFail, envOk, getPageMetrics_cssOk, waitForImages_ok,
    exportPdfProceed]
  rw [paginate_25_10_10]
  norm_num [Dom.init]

/-- C1 (failing-path evaluation): a page-bitmap conversion rejection makes
`rasterizePages` propagate the error with the staging root still attached,
and a PDF conversion rejection makes `exportPdf` propagate the error with
the staging root still attached: neither operation removes the export
staging root on its thrown-error exit paths. -/
theorem exportRoot_leaked_on_thrown_error :
    rasterizePages envPngFail 10 2 Dom.init =
      (Except.error "toPng rejected", { Dom.init with rootAttached := true }) ∧
    (exportPdf envPdfFail 10 none Dom.init).2.rootAttached = true ∧
    (exportPdf envPdfFail 10 none Dom.init).1 = Except.error "html2pdf rejected" :=
  ⟨rasterizePages_envPngFail, by rw [exportPdf_envPdfFail], by rw [exportPdf_envPdfFail]⟩

/-! ## PDF assembler: confirmation gating -/

/-- C5: with successful collaborators, `exportPdf` requests confirmation
exactly when `pagination.pageCount > 1`; single-page content (measured
height at most one page's content height) never invokes the confirmation
step and completes with `cancelled := false`; a declined confirmation ends
the run with `cancelled := true`, the staging root removed and no file
produced; and a completed run is cancelled exactly when the confirmation
was requested and declined. -/
theorem exportPdf_confirmation_spec (env : Env) (maxPages : ℚ) (fn : Option String)
    (hrm : env.resolveMeasure = Except.ok ())
    (hrc : env.resolveContent = Except.ok ())
    (hsv : env.savePdf = Except.ok ()) :
    ((exportPdf env maxPages fn Dom.init).2.confirmCalls =
      if 1 < (paginate env.measuredHeight (getPageMetrics env.css).contentHeightPx
          maxPages).pageCount then 1 else 0) ∧
    (env.measuredHeight ≤ (getPageMetrics env.css).contentHeightPx →
      (exportPdf env maxPages fn Dom.init).2.confirmCalls = 0 ∧
      (exportPdf env maxPages fn Dom.init).1 =
        Except.ok
          { pagination := paginate env.measuredHeight
              (getPageMetrics env.css).contentHeightPx maxPages
            cancelled := false }) ∧
    (1 < (paginate env.measuredHeight (getPageMetrics env.css).contentHeightPx
        maxPages).pageCount →
      env.confirmAnswer = false →
      exportPdf env maxPages fn Dom.init =
        (Except.ok
          { pagination := paginate env.measuredHeight
              (getPageMetrics env.css).contentHeightPx maxPages
            cancelled := true },
         { Dom.init with
            confirmCalls := 1
            pdfProgress :=
              [{ step := "measure"
                 pageCount := some (paginate env.measuredHeight
                   (getPageMetrics env.css).contentHeightPx maxPages).pageCount
                 clamped := some (paginate env.measuredHeight
                   (getPageMetrics env.css).contentHeightPx maxPages).clamped }] })) ∧
    (∀ r, (exportPdf env maxPages fn Dom.init).1 = Except.ok r →
      (r.cancelled = true ↔
        1 < (paginate env.measuredHeight (getPageMetrics env.css).contentHeightPx
          maxPages).pageCount ∧ env.confirmAnswer = false)) := by
  refine ⟨?_, ?_, ?_, ?_⟩
  · by_cases hpc : 1 < (paginate env.measuredHeight
        (getPageMetrics env.css).contentHeightPx maxPages).pageCount
    · cases hca : env.confirmAnswer <;>
        simp [exportPdf, hrm, hrc, hsv, waitForImages_ok, exportPdfProceed, hpc, hca,
          Dom.init]
    · simp [exportPdf, hrm, hrc, hsv, waitForImages_ok, exportPdfProceed, hpc, Dom.init]
  · intro hle
    have h1 : (paginate env.measuredHeight
        (getPageMetrics env.css).contentHeightPx maxPages).pageCount = 1 :=
      paginate_single_page _ _ _ hle
    constructor <;>
      simp [exportPdf, hrm, hrc, hsv, waitForImages_ok, exportPdfProceed, h1, Dom.init]
  · intro hpc hans
    simp [exportPdf, hrm, hrc, hsv, waitForImages_ok, exportPdfProceed, hpc, hans, Dom.init]
  · intro r hr
    by_cases hpc : 1 < (paginate env.measuredHeight
        (getPageMetrics env.css).contentHeightPx maxPages).pageCount
    · cases hca : env.confirmAnswer
      · simp only [exportPdf, hrm, hrc, hsv, waitForImages_ok, exportPdfProceed, hpc, hca,
          if_true, if_false, if_pos, gt_iff_lt] at hr
        simp only [if_pos hpc, Bool.false_eq_true, if_false, Except.ok.injEq] at hr
        rw [← hr]
        simp [hpc, hca]
      · simp only [exportPdf, hrm, hrc, hsv, waitForImages_ok, exportPdfProceed, gt_iff_lt] at hr
        simp only [if_pos hpc, hca, if_true, Except.ok.injEq] at hr
        rw [← hr]
        simp [hca]
    · simp only [exportPdf, hrm, hrc, hsv, waitForImages_ok, exportPdfProceed, gt_iff_lt] at hr
      simp only [if_neg hpc, Except.ok.injEq] at hr
      rw [← hr]
      simp [hpc]

/-- Witness for C5 at the canonical multi-page environment. -/
theorem exportPdf_confirmation_spec_witness :
    (exportPdf envOk 10 none Dom.init).2.confirmCalls =
      if 1 < (paginate envOk.measuredHeight (getPageMetrics envOk.css).contentHeightPx
          10).pageCount then 1 else 0 :=
  (exportPdf_confirmation_spec envOk 10 none rfl rfl rfl).1

/-! ## PDF assembler: page size configuration -/

/-- Modelled from the spec: the physical size in millimetres that the
external `jsPDF` library assigns to a named page format — the spec fixes
"A4 portrait" at 210×297 mm ("Physical page defaults: A4 portrait,
210×297 mm"); `jsPDF` itself is outside this repository. -/
def jsPdfFormatSizeMm (format orientation : String) : Option (ℚ × ℚ) :=
  if format = "a4" ∧ orientation = "portrait" then some (210, 297) else none

/-- A configuration that overrides the page width to 100 mm (CSS variable
`--page-width: 100`), with single-page content. -/
def cssWide : CssConfig :=
  { probeWidthPx := 1
    pageWidthMm := some 100
    pageHeightMm := some 297
    marginMm := some 20 }

def envCfg100 : Env :=
  { envOk with css := cssWide, measuredHeight := 5 }

theorem getPageMetrics_cssWide :
    getPageMetrics cssWide =
      { pageWidthPx := 100
        pageHeightPx := 297
        marginPx := 20
        contentWidthPx := 60
        contentHeightPx := 257
        pxPerMm := 1 } := by
  norm_num [getPageMetrics, measurePxPerMm, readMmVar, cssWide]

theorem paginate_5_257_10 :
    paginate 5 257 10 =
      { pageCount := 1
        pageContentHeightPx := 257
        totalContentHeightPx := 5
        offsets := [0]
        clamped := false } := by
  have hceil : (⌈(5 : ℚ) / max 1 257⌉ : ℤ) = 1 := by
    rw [show max (1 : ℚ) 257 = 257 by norm_num, Int.ceil_eq_iff]; norm_num
  simp only [paginate]
  rw [hceil]
  norm_num [max_def, min_def]
  simp [List.range_succ]

def pdfResultC9 : ExportPdfResult :=
  { pagination := paginate 5 257 10, cancelled := false }

def domC9 : Dom :=
  { rootAttached := false
    confirmCalls := 0
    zipEntries := []
    downloads := ["document.pdf"]
    pdfConfigs := [{ margin := 0
                     filename := "document.pdf"
                     imageType := "png"
                     quality := 1
                     canvasScale := 2
                     useCORS := true
                     unit := "mm"
                     format := "a4"
                     orientation := "portrait" }]
    zipProgress := []
    pdfProgress := [{ step := "measure", pageCount := some 1, clamped := some false },
                    { step := "render", pageCount := some 1, clamped := none },
                    { step := "done", pageCount := none, clamped := none }] }

theorem exportPdf_envCfg100 :
    exportPdf envCfg100 10 none Dom.init = (Except.ok pdfResultC9, domC9) := by
  simp only [exportPdf, envCfg100, envOk, getPageMetrics_cssWide, waitForImages_ok,
    exportPdfProceed]
  rw [paginate_5_257_10]
  norm_num [Dom.init, domC9, pdfResultC9, paginate_5_257_10]

/-- C9 counterexample: with the configured page width overridden to 100 mm,
a completed non-cancelled `exportPdf` run still configures the
bitmap-to-document conversion with the fixed A4 format (210×297 mm), which
differs from the configured page size. -/
theorem exportPdf_page_size_counterexample :
    (exportPdf envCfg100 10 none Dom.init).1 =
      Except.ok { pagination := paginate 5 257 10, cancelled := false } ∧
    readMmVar envCfg100.css.pageWidthMm 210 = 100 ∧
    (exportPdf envCfg100 10 none Dom.init).2.pdfConfigs.map
      (fun cfg => jsPdfFormatSizeMm cfg.format cfg.orientation) = [some (210, 297)] ∧
    some ((210 : ℚ), (297 : ℚ)) ≠
      some (readMmVar envCfg100.css.pageWidthMm 210,
            readMmVar envCfg100.css.pageHeightMm 297) := by
  refine ⟨?_, ?_, ?_, ?_⟩
  · rw [exportPdf_envCfg100]
    rfl
  · norm_num [envCfg100, cssWide, readMmVar]
  · rw [exportPdf_envCfg100]
    simp [domC9, jsPdfFormatSizeMm]
  · norm_num [envCfg100, cssWide, readMmVar]

/-- C9 amended: every completed non-cancelled `exportPdf` run configures the
conversion step with the fixed literal option set — A4 portrait in
millimetres (210×297 mm per the spec's format table), margin 0, PNG at
quality 1, canvas scale 2 — regardless of the configured page size, and
triggers a download named by the caller-supplied file name, defaulting to
`document.pdf`. -/
theorem exportPdf_fixed_a4_and_filename (env : Env) (maxPages : ℚ) (fn : Option String)
    (d : Dom) (r : ExportPdfResult) (d2 : Dom)
    (h : exportPdf env maxPages fn d = (Except.ok r, d2))
    (hc : r.cancelled = false) :
    d2.pdfConfigs = d.pdfConfigs ++
      [{ margin := 0
         filename := fn.getD "document.pdf"
         imageType := "png"
         quality := 1
         canvasScale := 2
         useCORS := true
         unit := "mm"
         format := "a4"
         orientation := "portrait" }] ∧
    d2.downloads = d.downloads ++ [fn.getD "document.pdf"] ∧
    jsPdfFormatSizeMm "a4" "portrait" = some (210, 297) := by
  simp only [exportPdf, waitForImages_ok] at h
  cases hrm : env.resolveMeasure with
  | error e => rw [hrm] at h; simp at h
  | ok u =>
  rw [hrm] at h
  by_cases hpc : 1 < (paginate env.measuredHeight
      (getPageMetrics env.css).contentHeightPx maxPages).pageCount
  · rw [if_pos (by exact hpc)] at h
    cases hca : env.confirmAnswer
    · rw [hca] at h
      simp only [Bool.false_eq_true, if_false, Prod.mk.injEq, Except.ok.injEq] at h
      rw [← h.1] at hc
      simp at hc
    · rw [hca] at h
      simp only [if_true] at h
      simp only [exportPdfProceed, waitForImages_ok] at h
      cases hrc : env.resolveContent with
      | error e => rw [hrc] at h; simp at h
      | ok v =>
      rw [hrc] at h
      cases hsv : env.savePdf with
      | error e => rw [hsv] at h; simp at h
      | ok w =>
      rw [hsv] at h
      simp only [Prod.mk.injEq, Except.ok.injEq] at h
      rw [← h.2]
      exact ⟨rfl, rfl, rfl⟩
  · rw [if_neg (by exact hpc)] at h
    simp only [exportPdfProceed, waitForImages_ok] at h
    cases hrc : env.resolveContent with
    | error e => rw [hrc] at h; simp at h
    | ok v =>
    rw [hrc] at h
    cases hsv : env.savePdf with
    | error e => rw [hsv] at h; simp at h
    | ok w =>
    rw [hsv] at h
    simp only [Prod.mk.injEq, Except.ok.injEq] at h
    rw [← h.2]
    exact ⟨rfl, rfl, rfl⟩

/-- Witness for the amended C9 at the overridden-width environment. -/
theorem exportPdf_fixed_a4_and_filename_witness :
    domC9.pdfConfigs = Dom.init.pdfConfigs ++
      [{ margin := 0
         filename := (none : Option String).getD "document.pdf"
         imageType := "png"
         quality := 1
         canvasScale := 2
         useCORS := true
         unit := "mm"
         format := "a4"
         orientation := "portrait" }] ∧
    domC9.downloads = Dom.init.downloads ++ [(none : Option String).getD "document.pdf"] ∧
    jsPdfFormatSizeMm "a4" "portrait" = some (210, 297) :=
  exportPdf_fixed_a4_and_filename envCfg100 10 none Dom.init pdfResultC9 domC9
    exportPdf_envCfg100 rfl

/-! ## ZIP assembler lemmas -/

/-- The entry names deposited by the archiving loop starting at page index
`k`, for `n` pages. -/
def zipNames (k n : Nat) : List String :=
  (List.range n).map (fun j => toFileName (k + j))

/-- The `zip` progress events emitted by the archiving loop starting at page
index `k`, for `n` pages out of `total`. -/
def zipEvents (k total n : Nat) : List ZipProgress :=
  (List.range n).map
    (fun j => { step := "zip", current := some (k + j + 1), total := some total })

theorem zipNames_succ (k n : Nat) :
    zipNames k (n + 1) = toFileName k :: zipNames (k + 1) n := by
  simp only [zipNames, List.range_succ_eq_map, List.map_cons, List.map_map, Nat.add_zero]
  have hfun : ((fun j => toFileName (k + j)) ∘ Nat.succ) =
      (fun j => toFileName (k + 1 + j)) := by
    funext j
    simp only [Function.comp]
    congr 1
    omega
  rw [hfun]

theorem zipEvents_succ (k total n : Nat) :
    zipEvents k total (n + 1) =
      ({ step := "zip", current := some (k + 1), total := some total } : ZipProgress) ::
        zipEvents (k + 1) total n := by
  simp only [zipEvents, List.range_succ_eq_map, List.map_cons, List.map_map, Nat.add_zero]
  have hfun :
      ((fun j =>
          ({ step := "zip", current := some (k + j + 1), total := some total } : ZipProgress))
        ∘ Nat.succ) =
      (fun j =>
        ({ step := "zip", current := some (k + 1 + j + 1), total := some total } :
          ZipProgress)) := by
    funext j
    simp only [Function.comp]
    congr 2
    omega
  rw [hfun]

theorem zipNames_zero (n : Nat) : zipNames 0 n = (List.range n).map toFileName := by
  simp [zipNames]

/-- A successful archiving loop appends exactly one entry named
`toFileName (k + j)` and one `zip` progress event per page, in page order,
and touches nothing else in the document. -/
theorem zipLoop_ok (env : Env) :
    ∀ (pages : List String) (k total : Nat) (d d2 : Dom),
      zipLoop env pages k total d = (Except.ok (), d2) →
      d2.zipEntries.map Prod.fst = d.zipEntries.map Prod.fst ++ zipNames k pages.length ∧
      d2.zipProgress = d.zipProgress ++ zipEvents k total pages.length ∧
      d2.downloads = d.downloads ∧
      d2.rootAttached = d.rootAttached ∧
      d2.confirmCalls = d.confirmCalls ∧
      d2.pdfConfigs = d.pdfConfigs ∧
      d2.pdfProgress = d.pdfProgress := by
  intro pages
  induction pages with
  | nil =>
      intro k total d d2 h
      simp only [zipLoop, Prod.mk.injEq] at h
      rw [← h.2]
      simp [zipNames, zipEvents]
  | cons p rest ih =>
      intro k total d d2 h
      simp only [zipLoop] at h
      cases hb : env.dataUrlToBlob p with
      | error e =>
          rw [hb] at h
          simp at h
      | ok blob =>
          rw [hb] at h
          obtain ⟨h1, h2, h3, h4, h5, h6, h7⟩ := ih (k + 1) total _ d2 h
          simp only [List.length_cons]
          refine ⟨?_, ?_, by simpa using h3, by simpa using h4,
            by simpa using h5, by simpa using h6, by simpa using h7⟩
          · rw [h1]
            simp only [List.map_append, List.map_cons, List.map_nil]
            rw [zipNames_succ, List.append_assoc]
            rfl
          · rw [h2]
            simp only []
            rw [zipEvents_succ, List.append_assoc]
            rfl

/-- C6: a successful `exportPngZip` run over `n` pages archives exactly `n`
entries, named `toFileName 0 .. toFileName (n-1)` in page order with no
duplicates, and triggers one download named by the caller (default
`markdown-pages.zip`). -/
theorem exportPngZip_entries_spec (env : Env) (mp scale : ℚ) (fn : Option String)
    (r : RasterizeResult) (d2 : Dom)
    (h : exportPngZip env mp scale fn Dom.init = (Except.ok r, d2)) :
    d2.zipEntries.map Prod.fst = (List.range r.pages.length).map toFileName ∧
    (d2.zipEntries.map Prod.fst).Nodup ∧
    d2.downloads = [fn.getD "markdown-pages.zip"] := by
  simp only [exportPngZip] at h
  rcases hras : rasterizePages env mp scale
      { Dom.init with
        zipProgress := Dom.init.zipProgress ++ [({ step := "rasterize" } : ZipProgress)] }
    with ⟨res, d1⟩
  rw [hras] at h
  cases res with
  | error e => simp at h
  | ok result =>
  simp only [] at h
  have hd1 : d1 = { ({ Dom.init with
      zipProgress := Dom.init.zipProgress ++ [({ step := "rasterize" } : ZipProgress)] } : Dom)
      with rootAttached := false } :=
    (rasterizePages_dom env mp scale _).1 result d1 hras
  rcases hzip : zipLoop env result.pages 0 result.pages.length d1 with ⟨zres, d3⟩
  rw [hzip] at h
  cases zres with
  | error e => simp at h
  | ok u =>
  obtain ⟨z1, z2, z3, z4, z5, z6, z7⟩ := zipLoop_ok env result.pages 0 result.pages.length d1 d3 hzip
  cases hgen : env.generateZip with
  | error e => rw [hgen] at h; simp at h
  | ok w =>
  rw [hgen] at h
  simp only [Prod.mk.injEq, Except.ok.injEq] at h
  obtain ⟨hres, hd2⟩ := h
  subst hres
  rw [← hd2]
  simp only []
  refine ⟨?_, ?_, ?_⟩
  · rw [z1, hd1, zipNames_zero]
    simp [Dom.init]
  · rw [z1, hd1, zipNames_zero]
    simp only [Dom.init]
    simpa using (List.nodup_range _).map toFileName_injective
  · rw [z3, hd1]
    simp [Dom.init]

/-- The document state after the canonical successful three-page
`exportPngZip` run with no caller-supplied file name. -/
def domZipOk : Dom :=
  { rootAttached := false
    confirmCalls := 0
    zipEntries := [(toFileName 0, "blob"), (toFileName 1, "blob"), (toFileName 2, "blob")]
    downloads := ["markdown-pages.zip"]
    pdfConfigs := []
    zipProgress := [{ step := "rasterize", current := none, total := none },
                    { step := "zip", current := some 1, total := some 3 },
                    { step := "zip", current := some 2, total := some 3 },
                    { step := "zip", current := some 3, total := some 3 },
                    { step := "generate", current := none, total := none },
                    { step := "done", current := none, total := none }]
    pdfProgress := [] }

theorem exportPngZip_envOk :
    exportPngZip envOk 10 2 none Dom.init = (Except.ok rasterResultOk, domZipOk) := by
  simp only [exportPngZip]
  rw [rasterizePages_envOk]
  simp only [zipLoop, envOk, rasterResultOk]
  norm_num [Dom.init, domZipOk]

/-- Witness for C6: the canonical successful three-page environment with no
caller-supplied file name. -/
theorem exportPngZip_entries_spec_witness :
    (domZipOk.zipEntries.map Prod.fst = (List.range rasterResultOk.pages.length).map toFileName ∧
      (domZipOk.zipEntries.map Prod.fst).Nodup ∧
      domZipOk.downloads = ["markdown-pages.zip"]) ∧
    domZipOk.zipEntries.map Prod.fst = ["page-01.png", "page-02.png", "page-03.png"] :=
  ⟨exportPngZip_entries_spec envOk 10 2 none rasterResultOk domZipOk exportPngZip_envOk, by
    simp only [domZipOk, List.map_cons, List.map_nil]
    rw [show toFileName 0 = "page-01.png" by
          rw [String.ext_iff]
          simp [toFileName, decDigits, digitChar, padStart2, String.data_append],
        show toFileName 1 = "page-02.png" by
          rw [String.ext_iff]
          simp [toFileName, decDigits, digitChar, padStart2, String.data_append],
        show toFileName 2 = "page-03.png" by
          rw [String.ext_iff]
          simp [toFileName, decDigits, digitChar, padStart2, String.data_append]]⟩

/-- C8 amended: a successful `exportPngZip` run over `n` pages reports
progress in exactly this order — one `rasterize` checkpoint before
rasterization begins, one `zip` checkpoint per page with `current` the
1-based page number and `total = n`, one `generate` checkpoint at archive
finalization, and one `done` checkpoint at download time. -/
theorem exportPngZip_progress_spec (env : Env) (mp scale : ℚ) (fn : Option String)
    (r : RasterizeResult) (d2 : Dom)
    (h : exportPngZip env mp scale fn Dom.init = (Except.ok r, d2)) :
    d2.zipProgress =
      ({ step := "rasterize", current := none, total := none } : ZipProgress) ::
        (zipEvents 0 r.pages.length r.pages.length ++
         [({ step := "generate", current := none, total := none } : ZipProgress),
          ({ step := "done", current := none, total := none } : ZipProgress)]) ∧
    zipEvents 0 r.pages.length r.pages.length =
      (List.range r.pages.length).map
        (fun j => ({ step := "zip", current := some (j + 1),
                     total := some r.pages.length } : ZipProgress)) := by
  simp only [exportPngZip] at h
  rcases hras : rasterizePages env mp scale
      { Dom.init with
        zipProgress := Dom.init.zipProgress ++ [({ step := "rasterize" } : ZipProgress)] }
    with ⟨res, d1⟩
  rw [hras] at h
  cases res with
  | error e => simp at h
  | ok result =>
  simp only [] at h
  have hd1 : d1 = { ({ Dom.init with
      zipProgress := Dom.init.zipProgress ++ [({ step := "rasterize" } : ZipProgress)] } : Dom)
      with rootAttached := false } :=
    (rasterizePages_dom env mp scale _).1 result d1 hras
  rcases hzip : zipLoop env result.pages 0 result.pages.length d1 with ⟨zres, d3⟩
  rw [hzip] at h
  cases zres with
  | error e => simp at h
  | ok u =>
  obtain ⟨z1, z2, z3, z4, z5, z6, z7⟩ :=
    zipLoop_ok env result.pages 0 result.pages.length d1 d3 hzip
  cases hgen : env.generateZip with
  | error e => rw [hgen] at h; simp at h
  | ok w =>
  rw [hgen] at h
  simp only [Prod.mk.injEq, Except.ok.injEq] at h
  obtain ⟨hres, hd2⟩ := h
  subst hres
  rw [← hd2]
  constructor
  · simp only []
    rw [z2, hd1]
    simp [Dom.init]
  · simp [zipEvents]

/-- Witness for the amended C8: the canonical successful three-page run. -/
theorem exportPngZip_progress_spec_witness :
    domZipOk.zipProgress =
      ({ step := "rasterize", current := none, total := none } : ZipProgress) ::
        (zipEvents 0 rasterResultOk.pages.length rasterResultOk.pages.length ++
         [({ step := "generate", current := none, total := none } : ZipProgress),
          ({ step := "done", current := none, total := none } : ZipProgress)]) ∧
    zipEvents 0 rasterResultOk.pages.length rasterResultOk.pages.length =
      (List.range rasterResultOk.pages.length).map
        (fun j => ({ step := "zip", current := some (j + 1),
                     total := some rasterResultOk.pages.length } : ZipProgress)) :=
  exportPngZip_progress_spec envOk 10 2 none rasterResultOk domZipOk exportPngZip_envOk

/-- C8 counterexample: in a successful three-page run the first progress
checkpoint is named `rasterize`, not `measure`. -/
theorem exportPngZip_progress_counterexample :
    (exportPngZip envOk 10 2 none Dom.init).2.zipProgress.map ZipProgress.step =
      ["rasterize", "zip", "zip", "zip", "generate", "done"] ∧
    ((exportPngZip envOk 10 2 none Dom.init).2.zipProgress.map ZipProgress.step).head? ≠
      some "measure" := by
  rw [exportPngZip_envOk]
  refine ⟨by simp [domZipOk], ?_⟩
  intro hcontra
  simp only [domZipOk] at hcontra
  have hdata := congrArg String.data (Option.some.injEq _ _ ▸ hcontra : ("rasterize" : String) = "measure")
  revert hdata
  decide

end MdStylizer
